import Mathlib

/-!
Verification of the Linux screen-capture core of Projecteur
(`src/linuxdesktop.cc`): environment probing, the capture dispatcher
`LinuxDesktop::grabScreen`, and the four capture strategies
(GNOME DBus, KDE DBus, virtual-desktop union grab, direct native grab).

The embedding is a shallow model: Qt types are modelled by plain records
(`QRect`, `QSize`), the external world (bus replies, the filesystem
temporary path, the native grab primitives) by a `World` record of oracle
responses, and every observable side effect (bus calls, log lines, file
removal, temporary-file opening, descriptor rewinds, grabs, crops) by an
explicit event trace.  The file models the `HAS_Qt_DBus` build (DBus
compiled in) and the Qt >= 5.11 / Qt 6 preprocessor branches of the
source, which are the ones the spec describes.
-/

/-- Model of Qt `QRect`: origin plus size, integer coordinates.
Qt stores corners `x1,y1,x2,y2` with `x2 = x + w - 1`; the `(x,y,w,h)`
view is equivalent for our purposes. -/
structure QRect where
  x : Int
  y : Int
  w : Int
  h : Int
deriving DecidableEq, Repr

/-- Qt `QRect::isNull`: both width and height are zero.  A
default-constructed `QRect()` is null. -/
def QRect.isNull (r : QRect) : Bool := r.w == 0 && r.h == 0

/-- Model of Qt `QRect::united` (`operator|`) on normalized rectangles:
a null operand is absorbed, otherwise the bounding box (componentwise
min of the origins, max of the far corners).  Screen geometries are
always normalized, so this matches Qt on every input the code feeds it. -/
def QRect.united (a b : QRect) : QRect :=
  if a.isNull then b
  else if b.isNull then a
  else
    ⟨min a.x b.x, min a.y b.y,
     max (a.x + a.w) (b.x + b.w) - min a.x b.x,
     max (a.y + a.h) (b.y + b.h) - min a.y b.y⟩

/-- A rectangle with strictly positive width and height (every real
screen geometry). -/
def QRect.pos (r : QRect) : Prop := 0 < r.w ∧ 0 < r.h

instance : DecidablePred QRect.pos := fun r => by
  unfold QRect.pos; infer_instance

/-- Pixel dimensions of an image.  A `QPixmap` is modelled as
`Option QSize`: `none` is the null pixmap `QPixmap()`, `some s` a
non-null pixmap of size `s`. -/
structure QSize where
  w : Int
  h : Int
deriving DecidableEq, Repr

/-- Snapshot of the process environment variables the constructor
`LinuxDesktop::LinuxDesktop` reads.  `QProcessEnvironment::value`
returns the empty string for an absent variable, so an absent variable
is the field holding `""`. -/
structure Env where
  kdeFullSession : String
  gnomeSessionId : String
  desktopSession : String
  xdgCurrentDesktop : String
  waylandDisplay : String
  xdgSessionType : String
deriving DecidableEq, Repr

/-- Whether character list `n` leads list `hay` (prefix test), the
recursion underlying the substring test below. -/
def leadsWith : List Char → List Char → Bool
  | [], _ => true
  | _ :: _, [] => false
  | a :: as, b :: bs => a == b && leadsWith as bs

/-- Whether character list `n` occurs contiguously inside `hay`. -/
def occursIn (n : List Char) : List Char → Bool
  | [] => leadsWith n []
  | b :: bs => leadsWith n (b :: bs) || occursIn n bs

/-- Model of Qt `QString::contains(n, Qt::CaseInsensitive)`: substring
test after lowercasing both sides. -/
def containsCI (hay n : String) : Bool :=
  occursIn (n.toList.map Char.toLower) (hay.toList.map Char.toLower)

/-- The `LinuxDesktop::Type` enumeration. -/
inductive DesktopType
  | Unknown
  | Gnome
  | KDE
deriving DecidableEq, Repr

/-- Immutable classification computed once by the `LinuxDesktop`
constructor: desktop type and wayland-session flag. -/
structure LinuxDesktop where
  m_type : DesktopType
  m_wayland : Bool
deriving DecidableEq, Repr

/-- Desktop-kind detection from `LinuxDesktop::LinuxDesktop`
(src/src/linuxdesktop.cc lines 130-141): GNOME if the GNOME session id
is non-empty or `XDG_CURRENT_DESKTOP` contains "Gnome" case-insensitively,
else KDE if `KDE_FULL_SESSION` is non-empty or `DESKTOP_SESSION` equals
"kde-plasma".  Modelled from the spec: the `Unknown` fallback is the
default member initializer of `m_type` in `linuxdesktop.h`, a header not
present under src/; the spec fixes it as "Else Unknown". -/
def desktopTypeOfEnv (env : Env) : DesktopType :=
  if env.gnomeSessionId.length != 0 || containsCI env.xdgCurrentDesktop "Gnome" then
    DesktopType.Gnome
  else if env.kdeFullSession.length != 0 || env.desktopSession == "kde-plasma" then
    DesktopType.KDE
  else
    DesktopType.Unknown

/-- Wayland-session detection from `LinuxDesktop::LinuxDesktop`
(src/src/linuxdesktop.cc lines 143-148): `XDG_SESSION_TYPE == "wayland"`
(exact, case-sensitive) or `WAYLAND_DISPLAY` contains "wayland"
case-insensitively. -/
def waylandOfEnv (env : Env) : Bool :=
  env.xdgSessionType == "wayland" || containsCI env.waylandDisplay "wayland"

/-- The whole constructor: classification computed once from the
environment snapshot. -/
def LinuxDesktop.ofEnv (env : Env) : LinuxDesktop :=
  ⟨desktopTypeOfEnv env, waylandOfEnv env⟩

/-- Observable side effects of a capture call, in program order: bus
method calls, leveled log lines, removal of the fixed GNOME temporary
file, opening of the KDE scoped temporary file, descriptor rewinds,
native `grabWindow` invocations and pixmap crops. -/
inductive Event
  | busCall (service meth : String)
  | logWarning (msg : String)
  | logError (msg : String)
  | logDebug (msg : String)
  | fileRemove (path : String)
  | tmpFileOpen
  | seek (pos : Nat)
  | grabWindowCall (region : QRect)
  | nativeGrabCall
  | setDevicePixelRatio
  | cropCall (region : QRect)
deriving DecidableEq, Repr

/-- Recognizer for warning-level log events (used to count warnings). -/
def Event.isWarning : Event → Bool
  | Event.logWarning _ => true
  | _ => false

/-- Recognizer for bus-call events. -/
def Event.isBusCall : Event → Bool
  | Event.busCall _ _ => true
  | _ => false

/-- Recognizer for the native / virtual-desktop grab primitives. -/
def Event.isGrabPrimitive : Event → Bool
  | Event.grabWindowCall _ => true
  | Event.nativeGrabCall => true
  | _ => false

/-- Oracle responses of everything outside the core: screen topology,
native grab primitives, GNOME and KDE bus replies, image loads and
decodes.  Each capture call reads from one fixed `World`. -/
structure World where
  /-- `QApplication::primaryScreen()->virtualSiblings().size()`. -/
  virtualSiblings : Nat
  /-- Geometries of `QGuiApplication::screens()`, in iteration order. -/
  screens : List QRect
  /-- Result of `screen->grabWindow(0)` on the direct native path. -/
  nativeGrab : Option QSize
  /-- Result of `primaryScreen->grabWindow(0, g.x, g.y, g.w, g.h)`. -/
  unionGrab : QRect → Option QSize
  /-- Value of the `QDBusReply<bool>` from the GNOME `Screenshot` call
  (`reply.value()`, which is `false` when the reply is invalid). -/
  gnomeReply : Bool
  /-- Whether the GNOME shell service writes the screenshot file at the
  fixed temporary path during the call. -/
  gnomeWrites : Bool
  /-- Image content `QPixmap(filepath)` decodes from that file when it
  exists (`none` = decode fails / null pixmap). -/
  gnomeLoaded : Option QSize
  /-- Whether `QTemporaryFile::open()` succeeds in the KDE strategy. -/
  kdeTmpOpenOk : Bool
  /-- Whether the `QDBusReply<QVariantMap>` from KWin is valid. -/
  kdeReplyValid : Bool
  /-- `reply.error().message()` when the KWin reply is invalid. -/
  kdeErrorMsg : String
  /-- `results["status"].toString()` of a valid KWin reply. -/
  kdeStatus : String
  /-- `results["error"].toString()` of a valid KWin reply. -/
  kdeError : String
  /-- Image decoded from the pipe contents on a status "ok" reply
  (`none` = decode fails, giving a null `QImage` and null pixmap). -/
  kdeLoaded : Option QSize

/-- The fixed, literal temporary path of the GNOME strategy
(`QDir::temp().absoluteFilePath(...)` of this name). -/
def gnomeShotPath : String := "000_projecteur_zoom_screenshot.png"

/-- Shallow embedding of `grabScreenDBusGnome` (src/src/linuxdesktop.cc
lines 27-43).  The filesystem is the single tracked fact "does the fixed
temporary path exist", threaded as a `Bool`: the bus call may create the
file (`gnomeWrites`); on a true reply the pixmap is loaded from the path
and `QFile::remove` deletes it; on a false reply the code logs an error
and returns the null pixmap without touching the file. -/
def grabScreenDBusGnome (w : World) (fileExists : Bool) :
    Option QSize × Bool × List Event :=
  let afterCall := fileExists || w.gnomeWrites
  let callEv := Event.busCall "org.gnome.Shell" "Screenshot"
  if w.gnomeReply then
    let pm := if afterCall then w.gnomeLoaded else none
    (pm, false, [callEv, Event.fileRemove gnomeShotPath])
  else
    (none, afterCall,
      [callEv, Event.logError "Screenshot via GNOME DBus interface failed."])

/-- Shallow embedding of `grabScreenDBusKde` (src/src/linuxdesktop.cc
lines 46-98).  A failed `QTemporaryFile::open` returns the null pixmap
before the `QDBusInterface` is built or called; otherwise the KWin
`CaptureActiveScreen` call blocks, an invalid reply or a status other
than "ok" logs and returns null, and on "ok" the descriptor is rewound
to 0 and the pipe contents decoded (a failed decode gives a null
`QImage`, hence a null pixmap). -/
def grabScreenDBusKde (w : World) : Option QSize × List Event :=
  if !w.kdeTmpOpenOk then
    (none, [Event.logDebug "Failed to create temporary file"])
  else
    let callEv := Event.busCall "org.kde.KWin.ScreenShot2" "CaptureActiveScreen"
    if !w.kdeReplyValid then
      (none, [Event.tmpFileOpen, callEv,
        Event.logDebug ("Screenshot failed: " ++ w.kdeErrorMsg)])
    else if w.kdeStatus ≠ "ok" then
      (none, [Event.tmpFileOpen, callEv,
        Event.logDebug ("Screenshot failed with status: " ++ w.kdeStatus),
        Event.logDebug ("Error message: " ++ w.kdeError)])
    else
      (w.kdeLoaded, [Event.tmpFileOpen, callEv, Event.seek 0])

/-- The inline rectangle-union fold of `grabScreenVirtualDesktop`:
`QRect g; for (s : screens) g = g.united(s->geometry());` starting from
the null default rectangle. -/
def unionRect (rs : List QRect) : QRect :=
  rs.foldl QRect.united ⟨0, 0, 0, 0⟩

/-- Shallow embedding of `grabScreenVirtualDesktop`
(src/src/linuxdesktop.cc lines 102-123): union all screen geometries,
grab that region from the primary screen, and on a non-null grab stamp
the device pixel ratio and crop (`QPixmap::copy`) to the target screen's
geometry — `copy(r)` always yields a pixmap of exactly `r`'s size.  A
null grab is returned as-is. -/
def grabScreenVirtualDesktop (w : World) (screen : QRect) :
    Option QSize × List Event :=
  let g := unionRect w.screens
  match w.unionGrab g with
  | none => (none, [Event.grabWindowCall g])
  | some _ =>
    (some ⟨screen.w, screen.h⟩,
      [Event.grabWindowCall g, Event.setDevicePixelRatio,
       Event.cropCall screen])

/-- The `switch (type())` of `LinuxDesktop::grabScreenWayland`
(src/src/linuxdesktop.cc lines 175-197), `HAS_Qt_DBus` build: dispatch
on the desktop type to the GNOME or KDE bus strategy; any other type
logs one warning and leaves the null pixmap. -/
def waylandStep (t : DesktopType) (w : World) (fileExists : Bool) :
    Option QSize × Bool × List Event :=
  match t with
  | DesktopType.Gnome => grabScreenDBusGnome w fileExists
  | DesktopType.KDE =>
    let r := grabScreenDBusKde w
    (r.1, fileExists, r.2)
  | DesktopType.Unknown =>
    (none, fileExists,
      [Event.logWarning
        "Currently zoom on Wayland is only supported via DBus on KDE and GNOME."])

/-- The tail of `LinuxDesktop::grabScreenWayland`:
`return pm.isNull() ? pm : pm.copy(screen->geometry());` — a non-null
strategy result is cropped to the target's geometry. -/
def LinuxDesktop.grabScreenWayland (t : DesktopType) (w : World)
    (fileExists : Bool) (screen : QRect) : Option QSize × Bool × List Event :=
  match (waylandStep t w fileExists).1 with
  | none => (none, (waylandStep t w fileExists).2.1, (waylandStep t w fileExists).2.2)
  | some _ => (some ⟨screen.w, screen.h⟩, (waylandStep t w fileExists).2.1,
      (waylandStep t w fileExists).2.2 ++ [Event.cropCall screen])

/-- Shallow embedding of the dispatcher `LinuxDesktop::grabScreen`
(src/src/linuxdesktop.cc lines 151-173): null target returns the null
pixmap immediately; a wayland session delegates to the compositor-bus
path; more than one virtual sibling of the primary screen takes the
virtual-desktop strategy; everything else is the direct native grab
`screen->grabWindow(0)`, returned uncropped. -/
def LinuxDesktop.grabScreen (d : LinuxDesktop) (w : World)
    (fileExists : Bool) (screen : Option QRect) :
    Option QSize × Bool × List Event :=
  match screen with
  | none => (none, fileExists, [])
  | some s =>
    if d.m_wayland then
      LinuxDesktop.grabScreenWayland d.m_type w fileExists s
    else if w.virtualSiblings > 1 then
      let r := grabScreenVirtualDesktop w s
      (r.1, fileExists, r.2)
    else
      (w.nativeGrab, fileExists, [Event.nativeGrabCall])

/-- A Qt string's `size()` is nonzero exactly when the string is
non-empty. -/
lemma strLen_ne_zero (s : String) : (s.length != 0) = true ↔ s ≠ "" := by
  rw [bne_iff_ne]
  constructor
  · intro h hs
    subst hs
    exact h rfl
  · intro h hn
    apply h
    cases s with
    | mk data =>
      cases data with
      | nil => rfl
      | cons c cs => simp [String.length] at hn

/-- The case-insensitive test against the literal "Gnome" of the source
equals the test against "gnome" of the spec: the needle is lowercased. -/
lemma containsCI_gnome (h : String) : containsCI h "Gnome" = containsCI h "gnome" := by
  have hl : "Gnome".toList.map Char.toLower = "gnome".toList.map Char.toLower := by decide
  simp only [containsCI, hl]

/-- Desktop-kind detection in decision-order normal form, with the
source's boolean conditions rephrased as the spec phrases them. -/
lemma desktopTypeOfEnv_eq (env : Env) :
    desktopTypeOfEnv env =
      if env.gnomeSessionId ≠ "" ∨ containsCI env.xdgCurrentDesktop "gnome" = true then
        DesktopType.Gnome
      else if env.kdeFullSession ≠ "" ∨ env.desktopSession = "kde-plasma" then
        DesktopType.KDE
      else
        DesktopType.Unknown := by
  have hgl : (env.gnomeSessionId.length != 0
        || containsCI env.xdgCurrentDesktop "Gnome") = true
      ↔ (env.gnomeSessionId ≠ "" ∨ containsCI env.xdgCurrentDesktop "gnome" = true) := by
    rw [Bool.or_eq_true, strLen_ne_zero, containsCI_gnome]
  have hkl : (env.kdeFullSession.length != 0
        || env.desktopSession == "kde-plasma") = true
      ↔ (env.kdeFullSession ≠ "" ∨ env.desktopSession = "kde-plasma") := by
    rw [Bool.or_eq_true, strLen_ne_zero, beq_iff_eq]
  unfold desktopTypeOfEnv
  by_cases hg : env.gnomeSessionId ≠ "" ∨ containsCI env.xdgCurrentDesktop "gnome" = true
  · rw [if_pos (hgl.2 hg), if_pos hg]
  · rw [if_neg (fun hc => hg (hgl.1 hc)), if_neg hg]
    by_cases hk : env.kdeFullSession ≠ "" ∨ env.desktopSession = "kde-plasma"
    · rw [if_pos (hkl.2 hk), if_pos hk]
    · rw [if_neg (fun hc => hk (hkl.1 hc)), if_neg hk]

/-- C3: for every environment snapshot, classification is GNOME if the
GNOME-session-id variable is non-empty or the current-desktop variable
contains "gnome" case-insensitively; else KDE if the KDE-full-session
variable is non-empty or the desktop-session variable equals exactly
"kde-plasma"; else Unknown; and when both GNOME and KDE signals are
present simultaneously, the classification is GNOME. -/
theorem C3_desktop_kind_classification (env : Env) :
    ((env.gnomeSessionId ≠ "" ∨ containsCI env.xdgCurrentDesktop "gnome" = true) →
        desktopTypeOfEnv env = DesktopType.Gnome) ∧
    ((¬(env.gnomeSessionId ≠ "" ∨ containsCI env.xdgCurrentDesktop "gnome" = true) ∧
        (env.kdeFullSession ≠ "" ∨ env.desktopSession = "kde-plasma")) →
        desktopTypeOfEnv env = DesktopType.KDE) ∧
    ((¬(env.gnomeSessionId ≠ "" ∨ containsCI env.xdgCurrentDesktop "gnome" = true) ∧
        ¬(env.kdeFullSession ≠ "" ∨ env.desktopSession = "kde-plasma")) →
        desktopTypeOfEnv env = DesktopType.Unknown) ∧
    (((env.gnomeSessionId ≠ "" ∨ containsCI env.xdgCurrentDesktop "gnome" = true) ∧
        (env.kdeFullSession ≠ "" ∨ env.desktopSession = "kde-plasma")) →
        desktopTypeOfEnv env = DesktopType.Gnome) := by
  rw [desktopTypeOfEnv_eq]
  refine ⟨?_, ?_, ?_, ?_⟩
  · intro h
    rw [if_pos h]
  · rintro ⟨hn, hk⟩
    rw [if_neg hn, if_pos hk]
  · rintro ⟨hn, hk⟩
    rw [if_neg hn, if_neg hk]
  · rintro ⟨hg, _⟩
    rw [if_pos hg]

/-- Witness for C3: an environment carrying both a GNOME and a KDE
signal is classified GNOME. -/
theorem C3_witness :
    desktopTypeOfEnv ⟨"true", "this-is-gnome", "kde-plasma", "GNOME", "", ""⟩ =
      DesktopType.Gnome :=
  (C3_desktop_kind_classification
      ⟨"true", "this-is-gnome", "kde-plasma", "GNOME", "", ""⟩).2.2.2
    ⟨Or.inl (by decide), Or.inl (by decide)⟩

/-- C4: the compositor-session flag is true iff the session-type
variable equals "wayland" exactly (case-sensitive) or the
display-socket-name variable contains "wayland" case-insensitively;
with every variable absent (empty) the classification defaults to
Unknown and non-compositor. -/
theorem C4_wayland_detection (env : Env) :
    (waylandOfEnv env = true ↔
        (env.xdgSessionType = "wayland" ∨ containsCI env.waylandDisplay "wayland" = true)) ∧
    desktopTypeOfEnv ⟨"", "", "", "", "", ""⟩ = DesktopType.Unknown ∧
    waylandOfEnv ⟨"", "", "", "", "", ""⟩ = false := by
  refine ⟨?_, by decide, by decide⟩
  unfold waylandOfEnv
  rw [Bool.or_eq_true, beq_iff_eq]

/-- Witness for C4: a session with `WAYLAND_DISPLAY=wayland-0` and
`XDG_SESSION_TYPE=x11` is classified as a compositor session. -/
theorem C4_witness :
    waylandOfEnv ⟨"", "", "", "", "wayland-0", "x11"⟩ = true :=
  (C4_wayland_detection ⟨"", "", "", "", "wayland-0", "x11"⟩).1.2
    (Or.inr (by decide))

/-- No event of the compositor-bus path is a native or virtual-desktop
grab primitive: the wayland branch never attempts those strategies. -/
lemma waylandStep_no_grab (t : DesktopType) (w : World) (fs : Bool) :
    ∀ e ∈ (waylandStep t w fs).2.2, e.isGrabPrimitive = false := by
  intro e he
  cases t with
  | Unknown =>
    simp [waylandStep] at he
    subst he
    rfl
  | Gnome =>
    cases hr : w.gnomeReply with
    | false =>
      simp [waylandStep, grabScreenDBusGnome, hr] at he
      rcases he with he | he <;> subst he <;> rfl
    | true =>
      simp [waylandStep, grabScreenDBusGnome, hr] at he
      rcases he with he | he <;> subst he <;> rfl
  | KDE =>
    cases ho : w.kdeTmpOpenOk with
    | false =>
      simp [waylandStep, grabScreenDBusKde, ho] at he
      subst he
      rfl
    | true =>
      cases hv : w.kdeReplyValid with
      | false =>
        simp [waylandStep, grabScreenDBusKde, ho, hv] at he
        rcases he with he | he | he <;> subst he <;> rfl
      | true =>
        by_cases hs : w.kdeStatus = "ok"
        · simp [waylandStep, grabScreenDBusKde, ho, hv, hs] at he
          rcases he with he | he | he <;> subst he <;> rfl
        · simp [waylandStep, grabScreenDBusKde, ho, hv, hs] at he
          rcases he with he | he | he | he <;> subst he <;> rfl

/-- Same property carried through the final crop of the wayland path. -/
lemma grabScreenWayland_no_grab (t : DesktopType) (w : World) (fs : Bool) (s : QRect) :
    ∀ e ∈ (LinuxDesktop.grabScreenWayland t w fs s).2.2, e.isGrabPrimitive = false := by
  intro e he
  unfold LinuxDesktop.grabScreenWayland at he
  rcases h : (waylandStep t w fs).1 with _ | sz
  · rw [h] at he
    exact waylandStep_no_grab t w fs e he
  · rw [h] at he
    simp only [List.mem_append, List.mem_singleton] at he
    rcases he with he | he
    · exact waylandStep_no_grab t w fs e he
    · subst he
      rfl

/-- A non-null result of the wayland path has exactly the target
geometry's size (it is `pm.copy(screen->geometry())`). -/
lemma grabScreenWayland_size (t : DesktopType) (w : World) (fs : Bool) (s : QRect)
    (sz : QSize) (h : (LinuxDesktop.grabScreenWayland t w fs s).1 = some sz) :
    sz = ⟨s.w, s.h⟩ := by
  unfold LinuxDesktop.grabScreenWayland at h
  rcases hstep : (waylandStep t w fs).1 with _ | sz'
  · rw [hstep] at h
    simp at h
  · rw [hstep] at h
    simp at h
    exact h.symm

/-- A non-null result of the virtual-desktop strategy has exactly the
target geometry's size (it is `pm.copy(screen->geometry())`). -/
lemma grabScreenVirtualDesktop_size (w : World) (s : QRect) (sz : QSize)
    (h : (grabScreenVirtualDesktop w s).1 = some sz) : sz = ⟨s.w, s.h⟩ := by
  rcases hg : w.unionGrab (unionRect w.screens) with _ | p
  · simp [grabScreenVirtualDesktop, hg] at h
  · simp [grabScreenVirtualDesktop, hg] at h
    exact h.symm

/-- C1: for every non-null target, the dispatcher's decision order is:
compositor session → delegate to the compositor-bus path (never
attempting a native or virtual-desktop grab); else more than one
virtual sibling → virtual-desktop strategy; else direct native grab;
and with a non-compositor session and a single connected surface no
compositor-bus strategy is invoked. -/
theorem C1_dispatch_decision_order (d : LinuxDesktop) (w : World) (fs : Bool) (s : QRect) :
    (d.m_wayland = true →
      d.grabScreen w fs (some s) = LinuxDesktop.grabScreenWayland d.m_type w fs s ∧
      ∀ e ∈ (d.grabScreen w fs (some s)).2.2, e.isGrabPrimitive = false) ∧
    (d.m_wayland = false → w.virtualSiblings > 1 →
      d.grabScreen w fs (some s) =
        ((grabScreenVirtualDesktop w s).1, fs, (grabScreenVirtualDesktop w s).2)) ∧
    (d.m_wayland = false → ¬(w.virtualSiblings > 1) →
      d.grabScreen w fs (some s) = (w.nativeGrab, fs, [Event.nativeGrabCall])) ∧
    (d.m_wayland = false → w.virtualSiblings = 1 →
      ∀ e ∈ (d.grabScreen w fs (some s)).2.2, e.isBusCall = false) := by
  refine ⟨?_, ?_, ?_, ?_⟩
  · intro hw
    have heq : d.grabScreen w fs (some s) = LinuxDesktop.grabScreenWayland d.m_type w fs s := by
      simp [LinuxDesktop.grabScreen, hw]
    refine ⟨heq, ?_⟩
    rw [heq]
    exact grabScreenWayland_no_grab d.m_type w fs s
  · intro hw hv
    simp [LinuxDesktop.grabScreen, hw, hv]
  · intro hw hv
    simp [LinuxDesktop.grabScreen, hw, hv]
  · intro hw hv
    have hnv : ¬(w.virtualSiblings > 1) := by omega
    have heq : d.grabScreen w fs (some s) = (w.nativeGrab, fs, [Event.nativeGrabCall]) := by
      simp [LinuxDesktop.grabScreen, hw, hnv]
    rw [heq]
    intro e he
    simp only [List.mem_singleton] at he
    subst he
    rfl

/-- Witness for C1: a non-compositor KDE-classified desktop with one
sibling takes the direct native path. -/
theorem C1_witness :
    (LinuxDesktop.mk DesktopType.KDE false).grabScreen
        ⟨1, [⟨0, 0, 1920, 1080⟩], some ⟨1920, 1080⟩, fun _ => none,
         false, false, none, true, true, "", "ok", "", none⟩
        false (some ⟨0, 0, 1920, 1080⟩) =
      (some ⟨1920, 1080⟩, false, [Event.nativeGrabCall]) := by
  have h := (C1_dispatch_decision_order (LinuxDesktop.mk DesktopType.KDE false)
      ⟨1, [⟨0, 0, 1920, 1080⟩], some ⟨1920, 1080⟩, fun _ => none,
       false, false, none, true, true, "", "ok", "", none⟩
      false ⟨0, 0, 1920, 1080⟩).2.2.1 rfl (by decide)
  exact h

/-- C2: `grab(null)` returns the empty result with no observable side
effect — no event at all, and the filesystem state is unchanged — for
every classification state. -/
theorem C2_null_target_noop (d : LinuxDesktop) (w : World) (fs : Bool) :
    d.grabScreen w fs none = (none, fs, []) := rfl

/-- C5: a compositor session with Unknown desktop kind returns empty,
emits exactly one warning, and attempts zero bus calls. -/
theorem C5_unsupported_compositor (w : World) (fs : Bool) (s : QRect) :
    (LinuxDesktop.mk DesktopType.Unknown true).grabScreen w fs (some s) =
      (none, fs,
        [Event.logWarning
          "Currently zoom on Wayland is only supported via DBus on KDE and GNOME."]) ∧
    ((LinuxDesktop.mk DesktopType.Unknown true).grabScreen w fs (some s)).2.2.countP
        Event.isWarning = 1 ∧
    ∀ e ∈ ((LinuxDesktop.mk DesktopType.Unknown true).grabScreen w fs (some s)).2.2,
      e.isBusCall = false := by
  have heq : (LinuxDesktop.mk DesktopType.Unknown true).grabScreen w fs (some s) =
      (none, fs,
        [Event.logWarning
          "Currently zoom on Wayland is only supported via DBus on KDE and GNOME."]) := rfl
  refine ⟨heq, ?_, ?_⟩
  · rw [heq]
    rfl
  · rw [heq]
    intro e he
    simp only [List.mem_singleton] at he
    subst he
    rfl

/-- C10: when the scoped temporary file cannot be opened, the KDE
strategy returns empty with a single debug line and no bus call. -/
theorem C10_kde_tmpfile_open_failure (w : World) (h : w.kdeTmpOpenOk = false) :
    (grabScreenDBusKde w).1 = none ∧
    (grabScreenDBusKde w).2 = [Event.logDebug "Failed to create temporary file"] ∧
    ∀ e ∈ (grabScreenDBusKde w).2, e.isBusCall = false := by
  have heq : grabScreenDBusKde w =
      (none, [Event.logDebug "Failed to create temporary file"]) := by
    simp [grabScreenDBusKde, h]
  refine ⟨by rw [heq], by rw [heq], ?_⟩
  rw [heq]
  intro e he
  simp only [List.mem_singleton] at he
  subst he
  rfl

/-- Witness for C10: a world whose temporary-file open fails yields the
empty result. -/
theorem C10_witness :
    (grabScreenDBusKde
      ⟨1, [], none, fun _ => none, false, false, none,
       false, true, "", "ok", "", some ⟨800, 600⟩⟩).1 = none :=
  (C10_kde_tmpfile_open_failure
    ⟨1, [], none, fun _ => none, false, false, none,
     false, true, "", "ok", "", some ⟨800, 600⟩⟩ rfl).1

/-- Two positive-size rectangles can be united into an accumulator in
either order: the union fold is right-commutative on screen
geometries. -/
lemma united_swap (acc x y : QRect) (hx : x.pos) (hy : y.pos) :
    (acc.united x).united y = (acc.united y).united x := by
  obtain ⟨hxw, hxh⟩ := hx
  obtain ⟨hyw, hyh⟩ := hy
  simp only [QRect.united, QRect.isNull]
  split_ifs <;>
    first
      | rfl
      | (simp_all only [QRect.mk.injEq, Bool.and_eq_true, beq_iff_eq, Bool.and_eq_false_iff,
          beq_eq_false_iff_ne, ne_eq, not_and, Bool.not_eq_true] <;> omega)

/-- The union fold is invariant under permutation of the screen list,
for screens of positive size. -/
lemma foldl_united_perm : ∀ {l₁ l₂ : List QRect}, l₁.Perm l₂ →
    (∀ r ∈ l₁, r.pos) → ∀ acc : QRect,
    l₁.foldl QRect.united acc = l₂.foldl QRect.united acc := by
  intro l₁ l₂ p
  induction p with
  | nil =>
    intro _ acc
    rfl
  | cons a p ih =>
    intro hpos acc
    simp only [List.foldl_cons]
    exact ih (fun r hr => hpos r (List.mem_cons_of_mem a hr)) (acc.united a)
  | swap a b l =>
    intro hpos acc
    simp only [List.foldl_cons]
    rw [united_swap acc b a (hpos b (by simp)) (hpos a (by simp))]
  | trans p₁ p₂ ih₁ ih₂ =>
    intro hpos acc
    rw [ih₁ hpos acc, ih₂ (fun r hr => hpos r (p₁.mem_iff.mpr hr)) acc]

/-- C6: the virtual-desktop strategy's union rectangle is an
order-independent rectangle-union fold starting from the empty
rectangle; for R1=(0,0,1920,1080) and R2=(1920,0,1280,1024) the union
is (0,0,3200,1080) and a capture targeting R2 is cropped to exactly R2
in the union's coordinate space; a null underlying capture propagates
as the empty result. -/
theorem C6_virtual_desktop_union :
    (∀ (l₁ l₂ : List QRect), l₁.Perm l₂ → (∀ r ∈ l₁, r.pos) →
        unionRect l₁ = unionRect l₂) ∧
    unionRect [⟨0, 0, 1920, 1080⟩, ⟨1920, 0, 1280, 1024⟩] = ⟨0, 0, 3200, 1080⟩ ∧
    (∀ (w : World),
        w.screens = [⟨0, 0, 1920, 1080⟩, ⟨1920, 0, 1280, 1024⟩] →
        ∀ sz, w.unionGrab ⟨0, 0, 3200, 1080⟩ = some sz →
        grabScreenVirtualDesktop w ⟨1920, 0, 1280, 1024⟩ =
          (some ⟨1280, 1024⟩,
            [Event.grabWindowCall ⟨0, 0, 3200, 1080⟩, Event.setDevicePixelRatio,
             Event.cropCall ⟨1920, 0, 1280, 1024⟩])) ∧
    (∀ (w : World) (s : QRect),
        w.unionGrab (unionRect w.screens) = none →
        (grabScreenVirtualDesktop w s).1 = none) := by
  have hu : unionRect [(⟨0, 0, 1920, 1080⟩ : QRect), ⟨1920, 0, 1280, 1024⟩] =
      ⟨0, 0, 3200, 1080⟩ := by decide
  refine ⟨fun l₁ l₂ p hpos => foldl_united_perm p hpos _, hu, ?_, ?_⟩
  · intro w hscreens sz hgrab
    simp only [grabScreenVirtualDesktop, hscreens, hu, hgrab]
  · intro w s hnone
    simp only [grabScreenVirtualDesktop, hnone]

/-- Witness for C6: the two-screen union is the same in either
enumeration order. -/
theorem C6_witness :
    unionRect [⟨1920, 0, 1280, 1024⟩, ⟨0, 0, 1920, 1080⟩] =
      unionRect [⟨0, 0, 1920, 1080⟩, ⟨1920, 0, 1280, 1024⟩] :=
  C6_virtual_desktop_union.1 _ _ (by decide) (by decide)

/-- Counterexample for C7: with a leftover file already at the fixed
temporary path and a bus reply of success=false, the GNOME strategy
returns empty but the path still exists afterwards — the failure exit
path performs no removal. -/
theorem C7_counterexample :
    (grabScreenDBusGnome
        ⟨1, [], none, fun _ => none, false, false, none,
         true, true, "", "", "", none⟩ true).1 = none ∧
    (grabScreenDBusGnome
        ⟨1, [], none, fun _ => none, false, false, none,
         true, true, "", "", "", none⟩ true).2.1 = true ∧
    Event.fileRemove gnomeShotPath ∉
      (grabScreenDBusGnome
        ⟨1, [], none, fun _ => none, false, false, none,
         true, true, "", "", "", none⟩ true).2.2 := by
  refine ⟨rfl, rfl, ?_⟩
  decide

/-- C7 amended: the GNOME strategy removes its fixed-path temporary
file only on the success-reply exit path — there unconditionally, even
if loading the image fails; after a reply of success=false the result
is empty and no removal is performed, so the path exists afterwards
exactly when it existed before or the service wrote it. -/
theorem C7_gnome_cleanup (w : World) (fs : Bool) :
    (w.gnomeReply = true →
      (grabScreenDBusGnome w fs).2.1 = false ∧
      Event.fileRemove gnomeShotPath ∈ (grabScreenDBusGnome w fs).2.2) ∧
    (w.gnomeReply = false →
      (grabScreenDBusGnome w fs).1 = none ∧
      (grabScreenDBusGnome w fs).2.1 = (fs || w.gnomeWrites) ∧
      Event.fileRemove gnomeShotPath ∉ (grabScreenDBusGnome w fs).2.2) := by
  constructor
  · intro hr
    constructor
    · simp [grabScreenDBusGnome, hr]
    · simp [grabScreenDBusGnome, hr]
  · intro hr
    refine ⟨?_, ?_, ?_⟩
    · simp [grabScreenDBusGnome, hr]
    · simp [grabScreenDBusGnome, hr]
    · simp [grabScreenDBusGnome, hr]

/-- Witness for C7's amended statement: on a success reply the file is
removed even though loading fails. -/
theorem C7_witness :
    (grabScreenDBusGnome
        ⟨1, [], none, fun _ => none, true, true, none,
         true, true, "", "", "", none⟩ false).2.1 = false :=
  ((C7_gnome_cleanup
      ⟨1, [], none, fun _ => none, true, true, none,
       true, true, "", "", "", none⟩ false).1 rfl).1

/-- C8: the KDE strategy returns a non-empty image only when the reply
is valid, its status field equals "ok" and decoding succeeds; on a
status other than "ok" it logs the status and error-message fields and
returns empty; on "ok" it rewinds the descriptor to the start and
returns the decoded image, empty if decoding fails. -/
theorem C8_kde_reply_handling (w : World) :
    (∀ sz, (grabScreenDBusKde w).1 = some sz →
      w.kdeTmpOpenOk = true ∧ w.kdeReplyValid = true ∧ w.kdeStatus = "ok" ∧
      w.kdeLoaded = some sz) ∧
    (w.kdeTmpOpenOk = true → w.kdeReplyValid = true → w.kdeStatus ≠ "ok" →
      (grabScreenDBusKde w).1 = none ∧
      Event.logDebug ("Screenshot failed with status: " ++ w.kdeStatus) ∈
        (grabScreenDBusKde w).2 ∧
      Event.logDebug ("Error message: " ++ w.kdeError) ∈ (grabScreenDBusKde w).2) ∧
    (w.kdeTmpOpenOk = true → w.kdeReplyValid = true → w.kdeStatus = "ok" →
      (grabScreenDBusKde w).1 = w.kdeLoaded ∧
      Event.seek 0 ∈ (grabScreenDBusKde w).2) := by
  refine ⟨?_, ?_, ?_⟩
  · intro sz hsz
    cases ho : w.kdeTmpOpenOk with
    | false =>
      simp [grabScreenDBusKde, ho] at hsz
    | true =>
      cases hv : w.kdeReplyValid with
      | false =>
        simp [grabScreenDBusKde, ho, hv] at hsz
      | true =>
        by_cases hs : w.kdeStatus = "ok"
        · refine ⟨rfl, rfl, hs, ?_⟩
          simp only [grabScreenDBusKde, ho, hv, hs] at hsz
          simp at hsz
          rw [hsz]
        · simp [grabScreenDBusKde, ho, hv, hs] at hsz
  · intro ho hv hs
    refine ⟨?_, ?_, ?_⟩ <;> simp [grabScreenDBusKde, ho, hv, hs]
  · intro ho hv hs
    refine ⟨?_, ?_⟩ <;> simp [grabScreenDBusKde, ho, hv, hs]

/-- Witness for C8: a valid "ok" reply with a decodable payload yields
that image and a rewind to position 0. -/
theorem C8_witness :
    (grabScreenDBusKde
        ⟨1, [], none, fun _ => none, false, false, none,
         true, true, "", "ok", "", some ⟨800, 600⟩⟩).1 = some ⟨800, 600⟩ ∧
    Event.seek 0 ∈
      (grabScreenDBusKde
        ⟨1, [], none, fun _ => none, false, false, none,
         true, true, "", "ok", "", some ⟨800, 600⟩⟩).2 :=
  (C8_kde_reply_handling
    ⟨1, [], none, fun _ => none, false, false, none,
     true, true, "", "ok", "", some ⟨800, 600⟩⟩).2.2 rfl rfl rfl

/-- Counterexample for C9: a non-compositor session with a single
virtual sibling takes the direct native path, which returns the native
primitive's image uncropped — here 3000x3000 against a 1920x1080 target
geometry, so the non-empty result is strictly larger than the target. -/
theorem C9_counterexample :
    ((LinuxDesktop.mk DesktopType.Unknown false).grabScreen
        ⟨1, [⟨0, 0, 1920, 1080⟩], some ⟨3000, 3000⟩, fun _ => none,
         false, false, none, true, true, "", "", "", none⟩
        false (some ⟨0, 0, 1920, 1080⟩)).1 = some ⟨3000, 3000⟩ ∧
    (⟨3000, 3000⟩ : QSize) ≠ ⟨1920, 1080⟩ ∧
    (1920 : Int) < 3000 ∧ (1080 : Int) < 3000 := by
  refine ⟨rfl, by decide, by decide, by decide⟩

/-- C9 amended: on the compositor-bus path and on the virtual-desktop
path a non-empty result's dimensions exactly equal the requested target
geometry's size after the final crop; the direct native path returns
the native primitive's image unchanged, with no crop applied. -/
theorem C9_result_size (d : LinuxDesktop) (w : World) (fs : Bool) (s : QRect) :
    (d.m_wayland = true →
      ∀ sz, (d.grabScreen w fs (some s)).1 = some sz → sz = ⟨s.w, s.h⟩) ∧
    (d.m_wayland = false → w.virtualSiblings > 1 →
      ∀ sz, (d.grabScreen w fs (some s)).1 = some sz → sz = ⟨s.w, s.h⟩) ∧
    (d.m_wayland = false → ¬(w.virtualSiblings > 1) →
      (d.grabScreen w fs (some s)).1 = w.nativeGrab) := by
  refine ⟨?_, ?_, ?_⟩
  · intro hw sz hsz
    have heq : d.grabScreen w fs (some s) =
        LinuxDesktop.grabScreenWayland d.m_type w fs s := by
      simp [LinuxDesktop.grabScreen, hw]
    rw [heq] at hsz
    exact grabScreenWayland_size d.m_type w fs s sz hsz
  · intro hw hv sz hsz
    have heq : (d.grabScreen w fs (some s)).1 = (grabScreenVirtualDesktop w s).1 := by
      simp [LinuxDesktop.grabScreen, hw, hv]
    rw [heq] at hsz
    exact grabScreenVirtualDesktop_size w s sz hsz
  · intro hw hv
    simp [LinuxDesktop.grabScreen, hw, hv]

/-- Witness for C9's amended statement: a two-screen virtual desktop
crops the union capture to the 1280x1024 target geometry. -/
theorem C9_witness :
    (⟨1280, 1024⟩ : QSize) =
      ⟨(⟨1920, 0, 1280, 1024⟩ : QRect).w, (⟨1920, 0, 1280, 1024⟩ : QRect).h⟩ :=
  (C9_result_size (LinuxDesktop.mk DesktopType.Unknown false)
      ⟨2, [⟨0, 0, 1920, 1080⟩, ⟨1920, 0, 1280, 1024⟩], none,
       fun _ => some ⟨9999, 9999⟩, false, false, none,
       true, true, "", "", "", none⟩
      false ⟨1920, 0, 1280, 1024⟩).2.1 rfl (by decide) ⟨1280, 1024⟩ rfl

/-- Witness for C5: applied to a concrete world, the single emitted
event is the warning, which is not a bus call. -/
theorem C5_witness :
    Event.isBusCall
      (Event.logWarning
        "Currently zoom on Wayland is only supported via DBus on KDE and GNOME.") =
      false :=
  (C5_unsupported_compositor
      ⟨1, [], none, fun _ => none, false, false, none,
       true, true, "", "", "", none⟩ false ⟨0, 0, 1, 1⟩).2.2
    (Event.logWarning
      "Currently zoom on Wayland is only supported via DBus on KDE and GNOME.")
    (List.Mem.head _)
